import Mathlib

/-!
Verification of the Taskflow REST backend: a shallow embedding of the
mongoose models (src/models/Task.js, Category.js, Note.js) and of the
route handlers (src/routes/tasks.js, notes.js, stats.js).

Modelling conventions:
- timestamps are natural numbers; the server clock is an explicit `now`
  parameter to each handler that reads it;
- a MongoDB document store collection is a Lean list; `find` with a sort
  option is modelled as filtering followed by `List.insertionSort` with
  the corresponding order (MongoDB leaves the relative order of sort-key
  ties unspecified, so theorems about ordering only use "is a permutation
  of the matching documents" and "is sorted", never tie order);
- identifier casting follows mongoose: a 24-character hex string (or any
  12-character string, read as raw bytes) casts to an ObjectId, anything
  else raises a CastError, modelled with `Except`;
- the `$regex` operator (with the `i` option) is modelled by `regexTestCI`,
  an unanchored case-insensitive matcher for the fragment of ECMAScript
  regular expressions in which every pattern character is either a literal
  or the dot wildcard; theorems that characterise search behaviour carry a
  `searchOk` hypothesis restricting the pattern to characters on which
  this fragment agrees with the full regex dialect.
-/

namespace Taskflow

/-- A hexadecimal digit, either case. -/
def isHexDigit (c : Char) : Bool :=
  c.isDigit || ('a' ≤ c.toLower && c.toLower ≤ 'f')

/-- mongoose ObjectId casting: succeeds on 24-character hex strings and on
12-character strings (interpreted as 12 raw bytes); everything else raises
a CastError. -/
def ObjectId.isValid (s : String) : Bool :=
  (s.length == 24 && s.data.all isHexDigit) || s.length == 12

/-- The message of the CastError raised when an identifier fails to cast. -/
def castErrorMsg (id : String) : String :=
  "Cast to ObjectId failed for value " ++ id ++ " at path _id"

/-- A stored Task document (src/models/Task.js). -/
structure Task where
  _id : String
  title : String
  description : String
  category : String
  priority : String
  status : String
  dueDate : Option Nat
  createdAt : Nat
  updatedAt : Nat
deriving DecidableEq

/-- A stored Category document (src/models/Category.js). -/
structure Category where
  _id : String
  name : String
  color : String
  icon : String
deriving DecidableEq

/-- A stored Note document (src/models/Note.js). -/
structure Note where
  _id : String
  taskId : Option String
  title : String
  content : String
  color : String
  pinned : Bool
  createdAt : Nat
  updatedAt : Nat
deriving DecidableEq

/-- The three collections of the store. -/
structure DB where
  tasks : List Task
  categories : List Category
  notes : List Note
deriving DecidableEq

/-- The tasks sub-object of the GET /stats response. -/
structure TaskStats where
  total : Nat
  pending : Nat
  inProgress : Nat
  completed : Nat
deriving DecidableEq

/-- The priority sub-object of the GET /stats response. -/
structure PriorityStats where
  high : Nat
  medium : Nat
  low : Nat
deriving DecidableEq

/-- The GET /stats response object. -/
structure StatsJson where
  tasks : TaskStats
  priority : PriorityStats
  categories : Nat
  notes : Nat
deriving DecidableEq

/-- The JSON bodies the modelled routes produce. `err s` is a body holding
exactly an error key with message `s`; `msg s` a body holding a message key. -/
inductive Body where
  | task : Task → Body
  | tasks : List Task → Body
  | note : Note → Body
  | notes : List Note → Body
  | stats : StatsJson → Body
  | err : String → Body
  | msg : String → Body
deriving DecidableEq

/-- Whether a body is an error body (a JSON object with an error key). -/
def Body.isError : Body → Bool
  | .err _ => true
  | _ => false

/-- An HTTP response: status code and JSON body. -/
structure Response where
  status : Nat
  body : Body
deriving DecidableEq

/-- The allowed values of Task.priority. -/
def priorityEnum : List String := ["low", "medium", "high"]

/-- The allowed values of Task.status. -/
def statusEnum : List String := ["pending", "in-progress", "completed"]

/-- A POST/PUT /tasks request body: each schema path either absent or
present with a value. -/
structure TaskInput where
  title : Option String := none
  description : Option String := none
  category : Option String := none
  priority : Option String := none
  status : Option String := none
  dueDate : Option Nat := none
  createdAt : Option Nat := none
  updatedAt : Option Nat := none

/-- new Task(body): mongoose assigns every schema path present in the body
(including createdAt and updatedAt, which carry only defaults, not
immutability) and applies the schema defaults for the omitted ones. -/
def hydrateTask (freshId : String) (now : Nat) (b : TaskInput) : Task :=
  { _id := freshId
    title := b.title.getD ""
    description := b.description.getD ""
    category := b.category.getD "general"
    priority := b.priority.getD "medium"
    status := b.status.getD "pending"
    dueDate := b.dueDate
    createdAt := b.createdAt.getD now
    updatedAt := b.updatedAt.getD now }

/-- The validation mongoose runs during save(): title is required (absent or
empty fails), priority and status must lie in their enums. Returns the
message of the first failing path in schema order, or none. -/
def validateTask (t : Task) : Option String :=
  if t.title = "" then
    some "Task validation failed: title is required"
  else if !priorityEnum.contains t.priority then
    some ("Task validation failed: " ++ t.priority ++ " is not a valid enum value for path priority")
  else if !statusEnum.contains t.status then
    some ("Task validation failed: " ++ t.status ++ " is not a valid enum value for path status")
  else none

/-- The pre-save hook of Task.js: updatedAt is set to the current time. -/
def preSaveTask (now : Nat) (t : Task) : Task := { t with updatedAt := now }

/-- Task.findById: casts the identifier (CastError on failure), then looks
the document up. -/
def findById (ts : List Task) (id : String) : Except String (Option Task) :=
  if ObjectId.isValid id then .ok (ts.find? fun t => t._id == id)
  else .error (castErrorMsg id)

/-- Case-insensitive match of one pattern character: the dot wildcard
matches anything, any other character matches itself up to case. -/
def charMatches (p c : Char) : Bool := p == '.' || p.toLower == c.toLower

/-- Match the whole pattern against a prefix of the text. -/
def matchHere : List Char → List Char → Bool
  | [], _ => true
  | _ :: _, [] => false
  | p :: ps, c :: cs => charMatches p c && matchHere ps cs

/-- The $regex operator with options i: unanchored search, i.e. the pattern
matches starting at some position of the text. Models the fragment of the
ECMAScript dialect where every pattern character is a literal or a dot. -/
def regexTestCI (pat s : String) : Bool :=
  s.data.tails.any fun suf => matchHere pat.data suf

/-- The query string of GET /tasks. A parameter is `none` when absent. -/
structure TaskQuery where
  category : Option String := none
  status : Option String := none
  priority : Option String := none
  search : Option String := none

/-- JS truthiness of an optional query-string value: a string is truthy
exactly when it is non-empty. -/
def truthy : Option String → Bool
  | none => false
  | some s => !(s == "")

/-- The MongoDB filter document GET /tasks builds. -/
structure TaskFilter where
  category : Option String := none
  status : Option String := none
  priority : Option String := none
  titleRegex : Option String := none

/-- Filter construction of GET /tasks: each key is added only when the
query parameter is truthy; search becomes a case-insensitive regex on
title. -/
def buildTaskFilter (q : TaskQuery) : TaskFilter :=
  { category := if truthy q.category then q.category else none
    status := if truthy q.status then q.status else none
    priority := if truthy q.priority then q.priority else none
    titleRegex := if truthy q.search then q.search else none }

/-- MongoDB filter semantics for the task filter documents this app builds:
equality on category, status, priority, regex on title. -/
def taskMatches (f : TaskFilter) (t : Task) : Bool :=
  (match f.category with | some c => t.category == c | none => true) &&
  (match f.status with | some s => t.status == s | none => true) &&
  (match f.priority with | some p => t.priority == p | none => true) &&
  (match f.titleRegex with | some pat => regexTestCI pat t.title | none => true)

/-- The sort order of sort createdAt -1: createdAt descending. -/
def createdAtDesc (a b : Task) : Prop := b.createdAt ≤ a.createdAt

instance : DecidableRel createdAtDesc := fun a b => Nat.decLe b.createdAt a.createdAt

instance : IsTotal Task createdAtDesc :=
  ⟨fun a b => Nat.le_total b.createdAt a.createdAt⟩

instance : IsTrans Task createdAtDesc :=
  ⟨fun _ _ _ h1 h2 => Nat.le_trans h2 h1⟩

/-- GET /tasks: filter, sort by createdAt descending, respond 200. -/
def getTasks (db : DB) (q : TaskQuery) : Response × DB :=
  let f := buildTaskFilter q
  let ts := List.insertionSort createdAtDesc (db.tasks.filter (taskMatches f))
  ({ status := 200, body := .tasks ts }, db)

/-- GET /tasks/:id: 500 with the CastError message on a malformed
identifier, 404 when absent, 200 with the document otherwise. -/
def getTaskById (db : DB) (id : String) : Response × DB :=
  match findById db.tasks id with
  | .error e => ({ status := 500, body := .err e }, db)
  | .ok none => ({ status := 404, body := .err "Task not found" }, db)
  | .ok (some t) => ({ status := 200, body := .task t }, db)

/-- POST /tasks: hydrate, validate (400 on failure), run the pre-save
hook, persist, respond 201 with the stored document. -/
def postTask (db : DB) (freshId : String) (now : Nat) (b : TaskInput) : Response × DB :=
  let t := hydrateTask freshId now b
  match validateTask t with
  | some e => ({ status := 400, body := .err e }, db)
  | none =>
    let t' := preSaveTask now t
    ({ status := 201, body := .task t' }, { db with tasks := db.tasks ++ [t'] })

/-- The update document of PUT /tasks/:id, spread of the request body with
updatedAt forced to now (the literal comes after the spread, so a
client-supplied updatedAt is overwritten; every other supplied path,
createdAt included, replaces the stored value). findByIdAndUpdate runs no
validators by default. -/
def applyTaskUpdate (now : Nat) (b : TaskInput) (t : Task) : Task :=
  { _id := t._id
    title := b.title.getD t.title
    description := b.description.getD t.description
    category := b.category.getD t.category
    priority := b.priority.getD t.priority
    status := b.status.getD t.status
    dueDate := match b.dueDate with | some d => some d | none => t.dueDate
    createdAt := b.createdAt.getD t.createdAt
    updatedAt := now }

/-- Replace the first document with the given identifier. -/
def updateFirst (id : String) (t' : Task) : List Task → List Task
  | [] => []
  | t :: ts => if t._id == id then t' :: ts else t :: updateFirst id t' ts

/-- Task.findByIdAndUpdate with new true: cast the identifier, apply the
update document, return the updated document. -/
def findByIdAndUpdate (ts : List Task) (id : String) (now : Nat) (b : TaskInput) :
    Except String (Option Task × List Task) :=
  if ObjectId.isValid id then
    match ts.find? (fun t => t._id == id) with
    | some t =>
      let t' := applyTaskUpdate now b t
      .ok (some t', updateFirst id t' ts)
    | none => .ok (none, ts)
  else .error (castErrorMsg id)

/-- PUT /tasks/:id: 400 with the error message on a CastError (the catch
block of the update route answers 400, unlike GET and DELETE), 404 when
absent, 200 with the updated document otherwise. -/
def putTask (db : DB) (id : String) (now : Nat) (b : TaskInput) : Response × DB :=
  match findByIdAndUpdate db.tasks id now b with
  | .error e => ({ status := 400, body := .err e }, db)
  | .ok (none, _) => ({ status := 404, body := .err "Task not found" }, db)
  | .ok (some t, ts) => ({ status := 200, body := .task t }, { db with tasks := ts })

/-- Remove the first document with the given identifier. -/
def removeFirst (id : String) : List Task → List Task
  | [] => []
  | t :: ts => if t._id == id then ts else t :: removeFirst id ts

/-- Task.findByIdAndDelete: cast the identifier, remove and return the
document. -/
def findByIdAndDelete (ts : List Task) (id : String) :
    Except String (Option Task × List Task) :=
  if ObjectId.isValid id then
    match ts.find? (fun t => t._id == id) with
    | some t => .ok (some t, removeFirst id ts)
    | none => .ok (none, ts)
  else .error (castErrorMsg id)

/-- DELETE /tasks/:id: 500 on a CastError, 404 when absent, 200 with a
message body otherwise. -/
def deleteTask (db : DB) (id : String) : Response × DB :=
  match findByIdAndDelete db.tasks id with
  | .error e => ({ status := 500, body := .err e }, db)
  | .ok (none, _) => ({ status := 404, body := .err "Task not found" }, db)
  | .ok (some _, ts) =>
    ({ status := 200, body := .msg "Task deleted successfully" }, { db with tasks := ts })

/-- The sort order of sort pinned -1 createdAt -1: pinned notes first
(true above false), then createdAt descending within each pinned group. -/
def noteDesc (a b : Note) : Prop :=
  (a.pinned = b.pinned ∧ b.createdAt ≤ a.createdAt) ∨ (a.pinned = true ∧ b.pinned = false)

instance : DecidableRel noteDesc := fun a b => by
  unfold noteDesc; infer_instance

instance : IsTotal Note noteDesc := by
  constructor
  intro a b
  cases ha : a.pinned <;> cases hb : b.pinned <;> simp [noteDesc, ha, hb] <;>
    exact Nat.le_total b.createdAt a.createdAt

instance : IsTrans Note noteDesc := by
  constructor
  intro a b c hab hbc
  rcases hab with ⟨hp, h1⟩ | ⟨hpa, hpb⟩ <;> rcases hbc with ⟨hq, h2⟩ | ⟨hqb, hqc⟩
  · exact Or.inl ⟨hp.trans hq, Nat.le_trans h2 h1⟩
  · exact Or.inr ⟨hp.trans hqb, hqc⟩
  · exact Or.inr ⟨hpa, hq ▸ hpb⟩
  · exact Or.inr ⟨hpa, hqc⟩

/-- The query string of GET /notes. -/
structure NoteQuery where
  taskId : Option String := none
  search : Option String := none

/-- The MongoDB filter document GET /notes builds. -/
structure NoteFilter where
  taskId : Option String := none
  contentRegex : Option String := none

/-- Filter construction of GET /notes: taskId by equality, search as a
case-insensitive regex on content, each only when truthy. -/
def buildNoteFilter (q : NoteQuery) : NoteFilter :=
  { taskId := if truthy q.taskId then q.taskId else none
    contentRegex := if truthy q.search then q.search else none }

/-- MongoDB filter semantics for the note filter documents this app
builds. -/
def noteMatches (f : NoteFilter) (n : Note) : Bool :=
  (match f.taskId with | some tid => n.taskId == some tid | none => true) &&
  (match f.contentRegex with | some pat => regexTestCI pat n.content | none => true)

/-- GET /notes: filter, sort pinned descending then createdAt descending,
respond 200. -/
def getNotes (db : DB) (q : NoteQuery) : Response × DB :=
  let f := buildNoteFilter q
  let ns := List.insertionSort noteDesc (db.notes.filter (noteMatches f))
  ({ status := 200, body := .notes ns }, db)

/-- A POST /notes request body. -/
structure NoteInput where
  taskId : Option String := none
  title : Option String := none
  content : Option String := none
  color : Option String := none
  pinned : Option Bool := none
  createdAt : Option Nat := none
  updatedAt : Option Nat := none

/-- new Note(body): assign supplied schema paths, apply defaults. -/
def hydrateNote (freshId : String) (now : Nat) (b : NoteInput) : Note :=
  { _id := freshId
    taskId := b.taskId
    title := b.title.getD ""
    content := b.content.getD ""
    color := b.color.getD "#ffffa5"
    pinned := b.pinned.getD false
    createdAt := b.createdAt.getD now
    updatedAt := b.updatedAt.getD now }

/-- Note validation: content is required. -/
def validateNote (n : Note) : Option String :=
  if n.content = "" then some "Note validation failed: content is required"
  else none

/-- The pre-save hook of Note.js: updatedAt is set to the current time. -/
def preSaveNote (now : Nat) (n : Note) : Note := { n with updatedAt := now }

/-- POST /notes: hydrate, validate, run the pre-save hook, persist. -/
def postNote (db : DB) (freshId : String) (now : Nat) (b : NoteInput) : Response × DB :=
  let n := hydrateNote freshId now b
  match validateNote n with
  | some e => ({ status := 400, body := .err e }, db)
  | none =>
    let n' := preSaveNote now n
    ({ status := 201, body := .note n' }, { db with notes := db.notes ++ [n'] })

/-- The nine count queries GET /stats issues, in the order of the
Promise.all array. -/
inductive CountQuery where
  | totalTasks
  | pendingTasks
  | inProgressTasks
  | completedTasks
  | highPriority
  | mediumPriority
  | lowPriority
  | totalCategories
  | totalNotes
deriving DecidableEq

/-- The value countDocuments returns for each of the nine filters over
the store. -/
def CountQuery.eval (db : DB) : CountQuery → Nat
  | .totalTasks => db.tasks.length
  | .pendingTasks => (db.tasks.filter fun t => t.status == "pending").length
  | .inProgressTasks => (db.tasks.filter fun t => t.status == "in-progress").length
  | .completedTasks => (db.tasks.filter fun t => t.status == "completed").length
  | .highPriority => (db.tasks.filter fun t => t.priority == "high").length
  | .mediumPriority => (db.tasks.filter fun t => t.priority == "medium").length
  | .lowPriority => (db.tasks.filter fun t => t.priority == "low").length
  | .totalCategories => db.categories.length
  | .totalNotes => db.notes.length

/-- Promise.all over the nine count queries: succeeds with the assembled
response object when every count succeeds, and is rejected with the error
of a failing count otherwise (which failure surfaces when several fail at
once is timing-dependent in the source; here the first in array order). -/
def statsCollect (store : CountQuery → Except String Nat) : Except String StatsJson :=
  match store .totalTasks with
  | .error e => .error e
  | .ok totalTasks =>
  match store .pendingTasks with
  | .error e => .error e
  | .ok pendingTasks =>
  match store .inProgressTasks with
  | .error e => .error e
  | .ok inProgressTasks =>
  match store .completedTasks with
  | .error e => .error e
  | .ok completedTasks =>
  match store .highPriority with
  | .error e => .error e
  | .ok highPriority =>
  match store .mediumPriority with
  | .error e => .error e
  | .ok mediumPriority =>
  match store .lowPriority with
  | .error e => .error e
  | .ok lowPriority =>
  match store .totalCategories with
  | .error e => .error e
  | .ok totalCategories =>
  match store .totalNotes with
  | .error e => .error e
  | .ok totalNotes =>
  .ok (StatsJson.mk
    (TaskStats.mk totalTasks pendingTasks inProgressTasks completedTasks)
    (PriorityStats.mk highPriority mediumPriority lowPriority)
    totalCategories totalNotes)

/-- GET /stats over a store whose individual count queries may fail: any
rejection of Promise.all reaches the catch block, which answers 500 with
the error message; on success the counts are returned as the nested
response object with 200. -/
def getStatsWith (store : CountQuery → Except String Nat) : Response :=
  match statsCollect store with
  | .ok s => { status := 200, body := .stats s }
  | .error e => { status := 500, body := .err e }

/-- GET /stats against the (never-failing) pure store: a read-only route,
the store is returned unchanged. -/
def getStats (db : DB) : Response × DB :=
  (getStatsWith (fun q => .ok (q.eval db)), db)

/-! ## Helper lemmas -/

/-- Replacing the first document carrying an identifier makes it the first
hit of a subsequent lookup, provided the lookup had a hit and the
replacement carries the identifier. -/
theorem find?_updateFirst (id : String) (t' : Task) (h' : (t'._id == id) = true) :
    ∀ ts : List Task, (ts.find? (fun u => u._id == id)).isSome →
      (updateFirst id t' ts).find? (fun u => u._id == id) = some t' := by
  intro ts
  induction ts with
  | nil => intro h; simp [List.find?] at h
  | cons t ts ih =>
    intro h
    by_cases ht : (t._id == id) = true
    · simp [updateFirst, ht, List.find?, h']
    · simp only [updateFirst, ht, if_false, Bool.false_eq_true]
      rw [List.find?] at h ⊢
      simp only [ht] at h ⊢
      exact ih h

/-! ## Claims -/

/-- Claim C1: a malformed Task identifier (one ObjectId casting rejects)
draws status 500 with an error body from GET /tasks/:id and
DELETE /tasks/:id but status 400 from PUT /tasks/:id, while a well-formed
identifier matching no stored Task draws 404 with body error "Task not
found" from all three routes. -/
theorem taskIdErrorStatuses :
    (∀ (db : DB) (id : String) (now : Nat) (b : TaskInput),
      ObjectId.isValid id = false →
      (getTaskById db id).1.status = 500 ∧ (getTaskById db id).1.body.isError = true ∧
      (deleteTask db id).1.status = 500 ∧ (deleteTask db id).1.body.isError = true ∧
      (putTask db id now b).1.status = 400 ∧ (putTask db id now b).1.body.isError = true) ∧
    (∀ (db : DB) (id : String) (now : Nat) (b : TaskInput),
      ObjectId.isValid id = true →
      db.tasks.find? (fun u => u._id == id) = none →
      (getTaskById db id).1 = ⟨404, .err "Task not found"⟩ ∧
      (deleteTask db id).1 = ⟨404, .err "Task not found"⟩ ∧
      (putTask db id now b).1 = ⟨404, .err "Task not found"⟩) := by
  constructor
  · intro db id now b h
    simp [getTaskById, deleteTask, putTask, findById, findByIdAndDelete,
      findByIdAndUpdate, h, Body.isError]
  · intro db id now b h hfind
    simp [getTaskById, deleteTask, putTask, findById, findByIdAndDelete,
      findByIdAndUpdate, h, hfind]

/-- Witness for C1 at the malformed identifier "invalid-id" and at the
well-formed absent identifier 507f1f77bcf86cd799439011 over the empty
store. -/
theorem taskIdErrorStatuses_witness :
    ((getTaskById ⟨[], [], []⟩ "invalid-id").1.status = 500 ∧
     (getTaskById ⟨[], [], []⟩ "invalid-id").1.body.isError = true ∧
     (deleteTask ⟨[], [], []⟩ "invalid-id").1.status = 500 ∧
     (deleteTask ⟨[], [], []⟩ "invalid-id").1.body.isError = true ∧
     (putTask ⟨[], [], []⟩ "invalid-id" 0 {}).1.status = 400 ∧
     (putTask ⟨[], [], []⟩ "invalid-id" 0 {}).1.body.isError = true) ∧
    ((getTaskById ⟨[], [], []⟩ "507f1f77bcf86cd799439011").1 = ⟨404, .err "Task not found"⟩ ∧
     (deleteTask ⟨[], [], []⟩ "507f1f77bcf86cd799439011").1 = ⟨404, .err "Task not found"⟩ ∧
     (putTask ⟨[], [], []⟩ "507f1f77bcf86cd799439011" 0 {}).1 = ⟨404, .err "Task not found"⟩) :=
  ⟨taskIdErrorStatuses.1 ⟨[], [], []⟩ "invalid-id" 0 {} (by decide),
   taskIdErrorStatuses.2 ⟨[], [], []⟩ "507f1f77bcf86cd799439011" 0 {} (by decide) rfl⟩

/-- Claim C2: updating a stored Task with priority "invalid-priority"
succeeds with 200, and both the returned and the stored document carry the
invalid value verbatim (the update path runs no enum validation). -/
theorem putInvalidPriorityStored :
    ∀ (db : DB) (id : String) (t : Task) (now : Nat) (b : TaskInput),
      ObjectId.isValid id = true →
      db.tasks.find? (fun u => u._id == id) = some t →
      b.priority = some "invalid-priority" →
      (putTask db id now b).1.status = 200 ∧
      ∃ t', (putTask db id now b).1.body = .task t' ∧
        t'.priority = "invalid-priority" ∧
        (putTask db id now b).2.tasks.find? (fun u => u._id == id) = some t' := by
  intro db id t now b hid hfind hpr
  have hmem : (t._id == id) = true := by
    have := List.find?_some hfind
    exact this
  have h' : ((applyTaskUpdate now b t)._id == id) = true := hmem
  constructor
  · simp [putTask, findByIdAndUpdate, hid, hfind]
  · refine ⟨applyTaskUpdate now b t, ?_, ?_, ?_⟩
    · simp [putTask, findByIdAndUpdate, hid, hfind]
    · simp [applyTaskUpdate, hpr]
    · simp only [putTask, findByIdAndUpdate, hid, if_true, hfind]
      exact find?_updateFirst id _ h' db.tasks (by simp [hfind])

/-- Witness for C2: one stored task, updated with the invalid priority. -/
theorem putInvalidPriorityStored_witness :
    (putTask ⟨[⟨"507f1f77bcf86cd799439011", "Task", "", "general", "medium", "pending", none, 0, 0⟩], [], []⟩
      "507f1f77bcf86cd799439011" 5 { priority := some "invalid-priority" }).1.status = 200 ∧
    ∃ t', (putTask ⟨[⟨"507f1f77bcf86cd799439011", "Task", "", "general", "medium", "pending", none, 0, 0⟩], [], []⟩
        "507f1f77bcf86cd799439011" 5 { priority := some "invalid-priority" }).1.body = .task t' ∧
      t'.priority = "invalid-priority" ∧
      (putTask ⟨[⟨"507f1f77bcf86cd799439011", "Task", "", "general", "medium", "pending", none, 0, 0⟩], [], []⟩
        "507f1f77bcf86cd799439011" 5 { priority := some "invalid-priority" }).2.tasks.find?
          (fun u => u._id == "507f1f77bcf86cd799439011") = some t' :=
  putInvalidPriorityStored
    ⟨[⟨"507f1f77bcf86cd799439011", "Task", "", "general", "medium", "pending", none, 0, 0⟩], [], []⟩
    "507f1f77bcf86cd799439011"
    ⟨"507f1f77bcf86cd799439011", "Task", "", "general", "medium", "pending", none, 0, 0⟩
    5 { priority := some "invalid-priority" } (by decide) (by decide) rfl

/-- Claim C3: POST /tasks with a (non-empty) title and no description,
category, priority or status creates a document with description empty,
category general, priority medium, status pending. -/
theorem postTaskDefaults :
    ∀ (db : DB) (freshId : String) (now : Nat) (title : String),
      title ≠ "" →
      (postTask db freshId now { title := some title }).1.status = 201 ∧
      ∃ t, (postTask db freshId now { title := some title }).1.body = .task t ∧
        t.description = "" ∧ t.category = "general" ∧
        t.priority = "medium" ∧ t.status = "pending" := by
  intro db freshId now title h
  refine ⟨?_, preSaveTask now (hydrateTask freshId now { title := some title }), ?_, ?_, ?_, ?_, ?_⟩ <;>
    simp [postTask, validateTask, hydrateTask, preSaveTask, priorityEnum, statusEnum, h]

/-- Witness for C3 with title "Buy milk". -/
theorem postTaskDefaults_witness :
    (postTask ⟨[], [], []⟩ "507f1f77bcf86cd799439011" 7 { title := some "Buy milk" }).1.status = 201 ∧
    ∃ t, (postTask ⟨[], [], []⟩ "507f1f77bcf86cd799439011" 7 { title := some "Buy milk" }).1.body = .task t ∧
      t.description = "" ∧ t.category = "general" ∧
      t.priority = "medium" ∧ t.status = "pending" :=
  postTaskDefaults ⟨[], [], []⟩ "507f1f77bcf86cd799439011" 7 "Buy milk" (by decide)

/-- Claim C4: POST /tasks with a priority outside the enum (such as
"critical") fails with 400 and an error body, whatever the rest of the
body; POST /tasks with a non-empty title and priority "high" succeeds
with 201 and the returned document's priority is exactly "high". -/
theorem postTaskPriorityValidation :
    (∀ (db : DB) (freshId : String) (now : Nat) (b : TaskInput) (p : String),
      b.priority = some p → priorityEnum.contains p = false →
      (postTask db freshId now b).1.status = 400 ∧
      (postTask db freshId now b).1.body.isError = true) ∧
    (∀ (db : DB) (freshId : String) (now : Nat) (title : String),
      title ≠ "" →
      (postTask db freshId now { title := some title, priority := some "high" }).1.status = 201 ∧
      ∃ t, (postTask db freshId now { title := some title, priority := some "high" }).1.body = .task t ∧
        t.priority = "high") := by
  constructor
  · intro db freshId now b p hp henum
    have hpr : (hydrateTask freshId now b).priority = p := by
      simp [hydrateTask, hp]
    have hval : ∃ e, validateTask (hydrateTask freshId now b) = some e := by
      unfold validateTask
      rw [hpr, henum]
      split
      · exact ⟨_, rfl⟩
      · simp
    obtain ⟨e, hval⟩ := hval
    constructor <;> simp [postTask, hval, Body.isError]
  · intro db freshId now title h
    refine ⟨?_, preSaveTask now (hydrateTask freshId now { title := some title, priority := some "high" }), ?_, ?_⟩ <;>
      simp [postTask, validateTask, hydrateTask, preSaveTask, priorityEnum, statusEnum, h]

/-- Witness for C4: priority "critical" is rejected, priority "high"
round-trips. -/
theorem postTaskPriorityValidation_witness :
    ((postTask ⟨[], [], []⟩ "507f1f77bcf86cd799439011" 7
        { title := some "T", priority := some "critical" }).1.status = 400 ∧
     (postTask ⟨[], [], []⟩ "507f1f77bcf86cd799439011" 7
        { title := some "T", priority := some "critical" }).1.body.isError = true) ∧
    ((postTask ⟨[], [], []⟩ "507f1f77bcf86cd799439011" 7
        { title := some "T", priority := some "high" }).1.status = 201 ∧
     ∃ t, (postTask ⟨[], [], []⟩ "507f1f77bcf86cd799439011" 7
        { title := some "T", priority := some "high" }).1.body = .task t ∧
       t.priority = "high") :=
  ⟨postTaskPriorityValidation.1 ⟨[], [], []⟩ "507f1f77bcf86cd799439011" 7
      { title := some "T", priority := some "critical" } "critical" rfl (by decide),
   postTaskPriorityValidation.2 ⟨[], [], []⟩ "507f1f77bcf86cd799439011" 7 "T" (by decide)⟩

/-- Claim C9: a GET /tasks query parameter supplied with the empty-string
value imposes no constraint — the response (and the store) is identical to
the one for the same request with that parameter omitted, for each of the
four parameters. -/
theorem emptyQueryParamIgnored :
    ∀ (db : DB) (c s p r : Option String),
      getTasks db { category := some "", status := s, priority := p, search := r } =
        getTasks db { category := none, status := s, priority := p, search := r } ∧
      getTasks db { category := c, status := some "", priority := p, search := r } =
        getTasks db { category := c, status := none, priority := p, search := r } ∧
      getTasks db { category := c, status := s, priority := some "", search := r } =
        getTasks db { category := c, status := s, priority := none, search := r } ∧
      getTasks db { category := c, status := s, priority := p, search := some "" } =
        getTasks db { category := c, status := s, priority := p, search := none } := by
  intro db c s p r
  refine ⟨?_, ?_, ?_, ?_⟩ <;> rfl

/-- Claim C10: a PUT /tasks/:id whose body supplies createdAt overwrites
the stored creation timestamp with the client value, while updatedAt is
set to the server clock whatever the body supplies for it; the returned
and the stored document agree. -/
theorem putOverwritesCreatedAt :
    ∀ (db : DB) (id : String) (t : Task) (now : Nat) (b : TaskInput) (v : Nat),
      ObjectId.isValid id = true →
      db.tasks.find? (fun u => u._id == id) = some t →
      b.createdAt = some v →
      ∃ t', (putTask db id now b).1 = ⟨200, .task t'⟩ ∧
        t'.createdAt = v ∧ t'.updatedAt = now ∧
        (putTask db id now b).2.tasks.find? (fun u => u._id == id) = some t' := by
  intro db id t now b v hid hfind hca
  have hmem : (t._id == id) = true := by
    have := List.find?_some hfind
    exact this
  refine ⟨applyTaskUpdate now b t, ?_, ?_, ?_, ?_⟩
  · simp [putTask, findByIdAndUpdate, hid, hfind]
  · simp [applyTaskUpdate, hca]
  · simp [applyTaskUpdate]
  · simp only [putTask, findByIdAndUpdate, hid, if_true, hfind]
    have h' : ((applyTaskUpdate now b t)._id == id) = true := hmem
    exact find?_updateFirst id _ h' db.tasks (by simp [hfind])

/-- Witness for C10: the stored createdAt 1 is overwritten with the client
value 42 and updatedAt ignores the client value 77, taking the clock 9. -/
theorem putOverwritesCreatedAt_witness :
    ∃ t', (putTask ⟨[⟨"507f1f77bcf86cd799439011", "Task", "", "general", "medium", "pending", none, 1, 1⟩], [], []⟩
        "507f1f77bcf86cd799439011" 9 { createdAt := some 42, updatedAt := some 77 }).1 = ⟨200, .task t'⟩ ∧
      t'.createdAt = 42 ∧ t'.updatedAt = 9 ∧
      (putTask ⟨[⟨"507f1f77bcf86cd799439011", "Task", "", "general", "medium", "pending", none, 1, 1⟩], [], []⟩
        "507f1f77bcf86cd799439011" 9 { createdAt := some 42, updatedAt := some 77 }).2.tasks.find?
          (fun u => u._id == "507f1f77bcf86cd799439011") = some t' :=
  putOverwritesCreatedAt
    ⟨[⟨"507f1f77bcf86cd799439011", "Task", "", "general", "medium", "pending", none, 1, 1⟩], [], []⟩
    "507f1f77bcf86cd799439011"
    ⟨"507f1f77bcf86cd799439011", "Task", "", "general", "medium", "pending", none, 1, 1⟩
    9 { createdAt := some 42, updatedAt := some 77 } 42 (by decide) (by decide) rfl

/-- Counterexample to C8 as stated: POST /tasks with createdAt 123 in the
body, at server clock 999, stores and returns a document whose createdAt
is the client-supplied 123 (the schema gives createdAt a default, not
immutability, and new Task(req.body) assigns every schema path present in
the body); only updatedAt is forced to the clock by the pre-save hook. -/
theorem postClientCreatedAtStored :
    (postTask ⟨[], [], []⟩ "507f1f77bcf86cd799439011" 999
        { title := some "x", createdAt := some 123, updatedAt := some 55 }).1.body =
      .task ⟨"507f1f77bcf86cd799439011", "x", "", "general", "medium", "pending", none, 123, 999⟩ := by
  decide

/-- Claim C8 amended: for every successful POST /tasks and POST /notes,
updatedAt is server-assigned (a client-supplied value is overwritten by
the pre-save hook), while createdAt equals the client-supplied value when
the body carries one and the server clock otherwise. -/
theorem postTimestampsServerAssigned :
    (∀ (db : DB) (freshId : String) (now : Nat) (b : TaskInput),
      (postTask db freshId now b).1.status = 201 →
      ∃ t, (postTask db freshId now b).1.body = .task t ∧
        t.updatedAt = now ∧ t.createdAt = b.createdAt.getD now) ∧
    (∀ (db : DB) (freshId : String) (now : Nat) (b : NoteInput),
      (postNote db freshId now b).1.status = 201 →
      ∃ n, (postNote db freshId now b).1.body = .note n ∧
        n.updatedAt = now ∧ n.createdAt = b.createdAt.getD now) := by
  constructor
  · intro db freshId now b h
    refine ⟨preSaveTask now (hydrateTask freshId now b), ?_, rfl, ?_⟩
    · simp only [postTask] at h ⊢
      split at h
      · simp at h
      · rfl
    · simp [preSaveTask, hydrateTask]
  · intro db freshId now b h
    refine ⟨preSaveNote now (hydrateNote freshId now b), ?_, rfl, ?_⟩
    · simp only [postNote] at h ⊢
      split at h
      · simp at h
      · rfl
    · simp [preSaveNote, hydrateNote]

/-- Witness for the amended C8: a task and a note created with client
timestamps in the body. -/
theorem postTimestampsServerAssigned_witness :
    (∃ t, (postTask ⟨[], [], []⟩ "507f1f77bcf86cd799439011" 999
        { title := some "x", createdAt := some 123, updatedAt := some 55 }).1.body = .task t ∧
      t.updatedAt = 999 ∧
      t.createdAt = (TaskInput.createdAt { title := some "x", createdAt := some 123, updatedAt := some 55 }).getD 999) ∧
    (∃ n, (postNote ⟨[], [], []⟩ "507f1f77bcf86cd799439012" 999
        { content := some "c", createdAt := some 124, updatedAt := some 56 }).1.body = .note n ∧
      n.updatedAt = 999 ∧
      n.createdAt = (NoteInput.createdAt { content := some "c", createdAt := some 124, updatedAt := some 56 }).getD 999) :=
  ⟨postTimestampsServerAssigned.1 ⟨[], [], []⟩ "507f1f77bcf86cd799439011" 999
      { title := some "x", createdAt := some 123, updatedAt := some 55 } (by decide),
   postTimestampsServerAssigned.2 ⟨[], [], []⟩ "507f1f77bcf86cd799439012" 999
      { content := some "c", createdAt := some 124, updatedAt := some 56 } (by decide)⟩

/-- Claim C7: GET /stats leaves the store unchanged and returns the single
nested object whose fields are the total task count, the task counts per
status value, the task counts per priority value, and the category and
note totals; and over any store whose count queries can fail, one failing
count query makes the whole request answer 500 with an error body and no
partial result. -/
theorem getStatsSpec :
    (∀ db : DB,
      (getStats db).2 = db ∧
      (getStats db).1 = ⟨200, .stats
        ⟨⟨db.tasks.length,
          (db.tasks.filter fun t => t.status == "pending").length,
          (db.tasks.filter fun t => t.status == "in-progress").length,
          (db.tasks.filter fun t => t.status == "completed").length⟩,
         ⟨(db.tasks.filter fun t => t.priority == "high").length,
          (db.tasks.filter fun t => t.priority == "medium").length,
          (db.tasks.filter fun t => t.priority == "low").length⟩,
         db.categories.length,
         db.notes.length⟩⟩) ∧
    (∀ (store : CountQuery → Except String Nat) (q : CountQuery) (e : String),
      store q = .error e →
      (getStatsWith store).status = 500 ∧ (getStatsWith store).body.isError = true) := by
  constructor
  · intro db
    exact ⟨rfl, rfl⟩
  · intro store q e hq
    have hcoll : ∃ e', statsCollect store = .error e' := by
      rcases h0 : store .totalTasks with e0 | n0
      · exact ⟨e0, by simp [statsCollect, h0]⟩
      rcases h1 : store .pendingTasks with e1 | n1
      · exact ⟨e1, by simp [statsCollect, h0, h1]⟩
      rcases h2 : store .inProgressTasks with e2 | n2
      · exact ⟨e2, by simp [statsCollect, h0, h1, h2]⟩
      rcases h3 : store .completedTasks with e3 | n3
      · exact ⟨e3, by simp [statsCollect, h0, h1, h2, h3]⟩
      rcases h4 : store .highPriority with e4 | n4
      · exact ⟨e4, by simp [statsCollect, h0, h1, h2, h3, h4]⟩
      rcases h5 : store .mediumPriority with e5 | n5
      · exact ⟨e5, by simp [statsCollect, h0, h1, h2, h3, h4, h5]⟩
      rcases h6 : store .lowPriority with e6 | n6
      · exact ⟨e6, by simp [statsCollect, h0, h1, h2, h3, h4, h5, h6]⟩
      rcases h7 : store .totalCategories with e7 | n7
      · exact ⟨e7, by simp [statsCollect, h0, h1, h2, h3, h4, h5, h6, h7]⟩
      rcases h8 : store .totalNotes with e8 | n8
      · exact ⟨e8, by simp [statsCollect, h0, h1, h2, h3, h4, h5, h6, h7, h8]⟩
      exfalso
      cases q <;> simp_all
    obtain ⟨e', hcoll⟩ := hcoll
    simp [getStatsWith, hcoll, Body.isError]

/-- Witness for C7: the pure part at a one-task store, and the failing
part at a store whose note count is rejected. -/
theorem getStatsSpec_witness :
    ((getStats ⟨[⟨"507f1f77bcf86cd799439011", "T", "", "general", "high", "pending", none, 0, 0⟩], [], []⟩).2 =
      ⟨[⟨"507f1f77bcf86cd799439011", "T", "", "general", "high", "pending", none, 0, 0⟩], [], []⟩ ∧
     (getStats ⟨[⟨"507f1f77bcf86cd799439011", "T", "", "general", "high", "pending", none, 0, 0⟩], [], []⟩).1 =
      ⟨200, .stats
        ⟨⟨[(⟨"507f1f77bcf86cd799439011", "T", "", "general", "high", "pending", none, 0, 0⟩ : Task)].length,
          ([(⟨"507f1f77bcf86cd799439011", "T", "", "general", "high", "pending", none, 0, 0⟩ : Task)].filter fun t => t.status == "pending").length,
          ([(⟨"507f1f77bcf86cd799439011", "T", "", "general", "high", "pending", none, 0, 0⟩ : Task)].filter fun t => t.status == "in-progress").length,
          ([(⟨"507f1f77bcf86cd799439011", "T", "", "general", "high", "pending", none, 0, 0⟩ : Task)].filter fun t => t.status == "completed").length⟩,
         ⟨([(⟨"507f1f77bcf86cd799439011", "T", "", "general", "high", "pending", none, 0, 0⟩ : Task)].filter fun t => t.priority == "high").length,
          ([(⟨"507f1f77bcf86cd799439011", "T", "", "general", "high", "pending", none, 0, 0⟩ : Task)].filter fun t => t.priority == "medium").length,
          ([(⟨"507f1f77bcf86cd799439011", "T", "", "general", "high", "pending", none, 0, 0⟩ : Task)].filter fun t => t.priority == "low").length⟩,
         ([] : List Category).length,
         ([] : List Note).length⟩⟩) ∧
    ((getStatsWith fun q => match q with
        | .totalNotes => .error "count failed"
        | _ => .ok 0).status = 500 ∧
     (getStatsWith fun q => match q with
        | .totalNotes => .error "count failed"
        | _ => .ok 0).body.isError = true) :=
  ⟨getStatsSpec.1 ⟨[⟨"507f1f77bcf86cd799439011", "T", "", "general", "high", "pending", none, 0, 0⟩], [], []⟩,
   getStatsSpec.2 (fun q => match q with
      | .totalNotes => .error "count failed"
      | _ => .ok 0) .totalNotes "count failed" rfl⟩

/-- Claim C6: GET /notes with no query parameters answers 200 with all
stored Notes, pinned ones before unpinned ones and each group by createdAt
descending; in particular notes created in order A (unpinned), B (pinned),
C (unpinned) with increasing creation times come back as [B, C, A]. -/
theorem getNotesPinnedSort :
    (∀ db : DB,
      (getNotes db {}).1.status = 200 ∧
      ∃ ns, (getNotes db {}).1.body = .notes ns ∧
        ns.Perm db.notes ∧ List.Sorted noteDesc ns) ∧
    (∀ a b c : Note, a.pinned = false → b.pinned = true → c.pinned = false →
      a.createdAt < b.createdAt → b.createdAt < c.createdAt →
      (getNotes ⟨[], [], [a, b, c]⟩ {}).1.body = .notes [b, c, a]) := by
  constructor
  · intro db
    have hfilter : db.notes.filter (noteMatches (buildNoteFilter {})) = db.notes :=
      List.filter_eq_self.mpr (fun n _ => rfl)
    refine ⟨rfl, List.insertionSort noteDesc db.notes, ?_, ?_, ?_⟩
    · simp only [getNotes, hfilter]
    · exact List.perm_insertionSort noteDesc db.notes
    · exact List.sorted_insertionSort noteDesc db.notes
  · intro a b c ha hb hc hab hbc
    have hac : a.createdAt < c.createdAt := Nat.lt_trans hab hbc
    have hdbc : noteDesc b c := Or.inr ⟨hb, hc⟩
    have hnab : ¬ noteDesc a b := by
      rintro (⟨hp, _⟩ | ⟨hpa, _⟩)
      · rw [ha, hb] at hp; exact Bool.false_ne_true hp
      · rw [ha] at hpa; exact Bool.false_ne_true hpa
    have hnac : ¬ noteDesc a c := by
      rintro (⟨_, hle⟩ | ⟨hpa, _⟩)
      · exact absurd hle (Nat.not_le.mpr hac)
      · rw [ha] at hpa; exact Bool.false_ne_true hpa
    have hfilter : [a, b, c].filter (noteMatches (buildNoteFilter {})) = [a, b, c] :=
      List.filter_eq_self.mpr (fun n _ => rfl)
    have h1 : List.orderedInsert noteDesc b [c] = [b, c] := by
      rw [List.orderedInsert, if_pos hdbc]
    have h2 : List.orderedInsert noteDesc a [b, c] = [b, c, a] := by
      rw [List.orderedInsert, if_neg hnab, List.orderedInsert, if_neg hnac,
        List.orderedInsert]
    have hsort : List.insertionSort noteDesc [a, b, c] = [b, c, a] := by
      rw [List.insertionSort, List.insertionSort, List.insertionSort,
        List.insertionSort, List.orderedInsert, h1, h2]
    simp only [getNotes, hfilter, hsort]

/-- Witness for C6: three concrete notes in creation order unpinned,
pinned, unpinned. -/
theorem getNotesPinnedSort_witness :
    ((getNotes ⟨[], [], []⟩ {}).1.status = 200 ∧
     ∃ ns, (getNotes ⟨[], [], []⟩ {}).1.body = .notes ns ∧
       ns.Perm ([] : List Note) ∧ List.Sorted noteDesc ns) ∧
    (getNotes ⟨[], [],
      [⟨"a07f1f77bcf86cd799439001", none, "A", "a", "#ffffa5", false, 1, 1⟩,
       ⟨"b07f1f77bcf86cd799439002", none, "B", "b", "#ffffa5", true, 2, 2⟩,
       ⟨"c07f1f77bcf86cd799439003", none, "C", "c", "#ffffa5", false, 3, 3⟩]⟩ {}).1.body =
      .notes [⟨"b07f1f77bcf86cd799439002", none, "B", "b", "#ffffa5", true, 2, 2⟩,
              ⟨"c07f1f77bcf86cd799439003", none, "C", "c", "#ffffa5", false, 3, 3⟩,
              ⟨"a07f1f77bcf86cd799439001", none, "A", "a", "#ffffa5", false, 1, 1⟩] :=
  ⟨getNotesPinnedSort.1 ⟨[], [], []⟩,
   getNotesPinnedSort.2
    ⟨"a07f1f77bcf86cd799439001", none, "A", "a", "#ffffa5", false, 1, 1⟩
    ⟨"b07f1f77bcf86cd799439002", none, "B", "b", "#ffffa5", true, 2, 2⟩
    ⟨"c07f1f77bcf86cd799439003", none, "C", "c", "#ffffa5", false, 3, 3⟩
    rfl rfl rfl (by decide) (by decide)⟩

/-- Modelled from the spec (section 4.2): "search performs a
case-insensitive substring match against title only" — true exactly when
the search string, case-folded, occurs contiguously in the case-folded
title. The route itself does not implement this; it hands the search
string to the store as a regular expression. -/
def specSearchMatches (search title : String) : Bool :=
  (title.data.map Char.toLower).tails.any fun suf =>
    (search.data.map Char.toLower).isPrefixOf suf

/-- Characters on which the modelled regex fragment (literals and the dot
wildcard) agrees with the full ECMAScript dialect the store uses. -/
def patFragmentOk (pat : String) : Bool :=
  pat.data.all fun ch => ch.isAlphanum || ch == ' ' || ch == '.'

/-- The search parameter lies in the faithfully modelled regex fragment. -/
def searchOk : Option String → Bool
  | none => true
  | some s => patFragmentOk s

/-- Counterexample to C5 as stated: the search string is interpreted as a
regular expression, not as a literal substring. With one stored task
titled "abc", GET /tasks?search=a.c returns that task, although "a.c" is
not a case-insensitive substring of "abc" (the dot is a wildcard). -/
theorem searchIsRegexNotSubstring :
    (getTasks ⟨[⟨"507f1f77bcf86cd799439011", "abc", "", "general", "medium", "pending", none, 0, 0⟩], [], []⟩
        { search := some "a.c" }).1.body =
      .tasks [⟨"507f1f77bcf86cd799439011", "abc", "", "general", "medium", "pending", none, 0, 0⟩] ∧
    specSearchMatches "a.c" "abc" = false := by
  exact ⟨rfl, rfl⟩

/-- One equality column of the task filter: the built filter constrains the
field exactly when the parameter is supplied and non-empty. -/
theorem optEqConstraint_iff (o : Option String) (x : String) :
    (match (if truthy o then o else none) with
      | some c => x == c
      | none => true) = true ↔ ∀ c, o = some c → c ≠ "" → x = c := by
  cases o with
  | none => simp [truthy]
  | some s =>
    by_cases hs : s = ""
    · subst hs; simp [truthy]
    · simp [truthy, hs]

/-- The search column of the task filter. -/
theorem optRegexConstraint_iff (o : Option String) (x : String) :
    (match (if truthy o then o else none) with
      | some pat => regexTestCI pat x
      | none => true) = true ↔ ∀ s, o = some s → s ≠ "" → regexTestCI s x = true := by
  cases o with
  | none => simp [truthy]
  | some s =>
    by_cases hs : s = ""
    · subst hs; simp [truthy]
    · simp [truthy, hs]

/-- The document filter GET /tasks builds holds exactly the conjunction of
the supplied, non-empty query constraints. -/
theorem taskMatches_iff (q : TaskQuery) (t : Task) :
    taskMatches (buildTaskFilter q) t = true ↔
      (∀ c, q.category = some c → c ≠ "" → t.category = c) ∧
      (∀ s, q.status = some s → s ≠ "" → t.status = s) ∧
      (∀ p, q.priority = some p → p ≠ "" → t.priority = p) ∧
      (∀ s, q.search = some s → s ≠ "" → regexTestCI s t.title = true) := by
  simp only [taskMatches, buildTaskFilter, Bool.and_eq_true]
  rw [optEqConstraint_iff q.category t.category, optEqConstraint_iff q.status t.status,
    optEqConstraint_iff q.priority t.priority, optRegexConstraint_iff q.search t.title]
  tauto

/-- Claim C5 amended: GET /tasks answers 200 with exactly the tasks
satisfying the conjunction of the supplied non-empty filters — category,
status and priority by equality, search by case-insensitive unanchored
REGULAR-EXPRESSION match against the title (which coincides with substring
containment only when the search string is free of regex metacharacters;
the theorem is stated over search strings in the modelled fragment) —
ordered by createdAt descending, with the empty filter set returning all
tasks and no matches yielding an empty list. -/
theorem getTasksFilterSortSpec :
    ∀ (db : DB) (q : TaskQuery), searchOk q.search = true →
      (getTasks db q).1.status = 200 ∧ (getTasks db q).2 = db ∧
      ∃ ts, (getTasks db q).1.body = .tasks ts ∧
        ts.Perm (db.tasks.filter (taskMatches (buildTaskFilter q))) ∧
        List.Sorted createdAtDesc ts ∧
        ∀ t, t ∈ ts ↔ t ∈ db.tasks ∧
          (∀ c, q.category = some c → c ≠ "" → t.category = c) ∧
          (∀ s, q.status = some s → s ≠ "" → t.status = s) ∧
          (∀ p, q.priority = some p → p ≠ "" → t.priority = p) ∧
          (∀ s, q.search = some s → s ≠ "" → regexTestCI s t.title = true) := by
  intro db q _
  refine ⟨rfl, rfl,
    List.insertionSort createdAtDesc (db.tasks.filter (taskMatches (buildTaskFilter q))),
    rfl, List.perm_insertionSort createdAtDesc _, List.sorted_insertionSort createdAtDesc _, ?_⟩
  intro t
  rw [(List.perm_insertionSort createdAtDesc _).mem_iff, List.mem_filter,
    and_congr_right_iff.mpr (fun _ => taskMatches_iff q t)]

/-- Witness for the amended C5: a two-task store filtered by status and a
search pattern inside the modelled fragment. -/
theorem getTasksFilterSortSpec_witness :
    (getTasks ⟨[⟨"507f1f77bcf86cd799439011", "abc", "", "general", "medium", "pending", none, 0, 0⟩], [], []⟩
        { status := some "pending", search := some "b" }).1.status = 200 ∧
    (getTasks ⟨[⟨"507f1f77bcf86cd799439011", "abc", "", "general", "medium", "pending", none, 0, 0⟩], [], []⟩
        { status := some "pending", search := some "b" }).2 =
      ⟨[⟨"507f1f77bcf86cd799439011", "abc", "", "general", "medium", "pending", none, 0, 0⟩], [], []⟩ ∧
    ∃ ts, (getTasks ⟨[⟨"507f1f77bcf86cd799439011", "abc", "", "general", "medium", "pending", none, 0, 0⟩], [], []⟩
        { status := some "pending", search := some "b" }).1.body = .tasks ts ∧
      ts.Perm ([⟨"507f1f77bcf86cd799439011", "abc", "", "general", "medium", "pending", none, 0, 0⟩].filter
        (taskMatches (buildTaskFilter { status := some "pending", search := some "b" }))) ∧
      List.Sorted createdAtDesc ts ∧
      ∀ t, t ∈ ts ↔ t ∈ [(⟨"507f1f77bcf86cd799439011", "abc", "", "general", "medium", "pending", none, 0, 0⟩ : Task)] ∧
        (∀ c, (none : Option String) = some c → c ≠ "" → t.category = c) ∧
        (∀ s, (some "pending" : Option String) = some s → s ≠ "" → t.status = s) ∧
        (∀ p, (none : Option String) = some p → p ≠ "" → t.priority = p) ∧
        (∀ s, (some "b" : Option String) = some s → s ≠ "" → regexTestCI s t.title = true) :=
  getTasksFilterSortSpec
    ⟨[⟨"507f1f77bcf86cd799439011", "abc", "", "general", "medium", "pending", none, 0, 0⟩], [], []⟩
    { status := some "pending", search := some "b" } (by decide)

end Taskflow
